import Mathlib

/-!
# A verification model of the pd-ecs entity-component-system core

This file gives a shallow embedding in Lean 4 of `src/ecs.c` / `src/ecs.h`
(the pd-ecs registry: entity slot pool with generation-tagged handles,
component registry and flat stores, system table, and the bitmask matcher),
together with theorems settling the specification claims about it.

Machine integers are modelled as `Nat` with explicit truncation (`u8`, `u16`)
exactly where the C types truncate.  C functions that contain `ASSERT`s or
`abort()` calls are embedded as `Option`-returning functions (`none` models
the fatal path of a debug build).  Array+count pairs of fixed capacity are
modelled as fixed-length `List`s plus the count, except the component
descriptor table, which only ever grows at the end and is modelled as a
growing list whose length plays the role of `compDataCount`.
-/

namespace PdEcs

/-- `ECS_MAX_ENTITIES` (default configuration in ecs.h). -/
def ECS_MAX_ENTITIES : Nat := 128

/-- `ECS_MAX_COMPS` (default configuration in ecs.h). -/
def ECS_MAX_COMPS : Nat := 8

/-- `ECS_MAX_SYSTEMS` (default configuration in ecs.h). -/
def ECS_MAX_SYSTEMS : Nat := 32

/-- Truncation to `uint8_t`. -/
def u8 (n : Nat) : Nat := n % 256

/-- Truncation to `uint16_t`. -/
def u16 (n : Nat) : Nat := n % 65536

/-- The `kEntityUnused` flag bit (`1 << 0` in the `EntityFlags` enum). -/
def kEntityUnused : Nat := 1

/-- `EntityData`: per-slot info word (generation in bits 0-15, flags in
bits 16-31 of a `uint32_t`) plus the component membership mask. -/
structure EntityData where
  info : Nat
  components : Nat
deriving DecidableEq

instance : Inhabited EntityData := ⟨⟨0, 0⟩⟩

/-- `ComponentData`: element size, name, and the flat per-type store of
`ECS_MAX_ENTITIES * size` bytes. -/
structure ComponentData where
  size : Nat
  id : String
  data : List Nat
deriving DecidableEq

instance : Inhabited ComponentData := ⟨⟨0, "", []⟩⟩

/-- `System`: identifier, required-component mask, callback and context.
The callback pointer and the context pointer are abstract; `func = 0`
models a `NULL` callback. -/
structure System where
  id : Nat
  mask : Nat
  func : Nat
  userData : Nat
deriving DecidableEq

instance : Inhabited System := ⟨⟨0, 0, 0, 0⟩⟩

/-- `EntityPool` from `DECLARE_POOL(EntityData, Entity, ECS_MAX_ENTITIES)`:
a LIFO free-index stack plus the slot data array (both of fixed length
`ECS_MAX_ENTITIES`). -/
structure EntityPool where
  freeCount : Nat
  freeList : List Nat
  data : List EntityData
deriving DecidableEq

/-- `struct ECS`.  `compData.length` plays the role of `compDataCount`;
`systems` is the fixed `ECS_MAX_SYSTEMS`-element array gated by
`systemCount` (C leaves the unused tail uninitialised; the model fills it
with a fixed default, which no operation ever reads). -/
structure ECS where
  entities : EntityPool
  compData : List ComponentData
  nextSystemID : Nat
  systemCount : Nat
  systems : List System
deriving DecidableEq

-- MARK: - Handle Utilities (ecs.c / ecs.h)

/-- `generation(EntityData)`: `data.info & 0xffff` truncated to `uint8_t`. -/
def generation (d : EntityData) : Nat := u8 (d.info &&& 65535)

/-- `flags(EntityData)`: `(data.info >> 16) & 0xffff`. -/
def flags (d : EntityData) : Nat := (d.info >>> 16) &&& 65535

/-- `createHandle(index, generation)`: `((Entity)generation << 16) | (Entity)index`,
with the `uint16_t`/`uint8_t` parameter conversions applied at the boundary. -/
def createHandle (index gen : Nat) : Nat := ((u8 gen) <<< 16) ||| (u16 index)

/-- `createEntityData(generation)`: info holds just the (uint8) generation,
the membership mask is cleared. -/
def createEntityData (gen : Nat) : EntityData := ⟨u8 gen, 0⟩

/-- `entityIndex(handle)` (ecs.h): `handle & 0xffff`. -/
def entityIndex (handle : Nat) : Nat := handle &&& 65535

/-- `entityGen(handle)` (ecs.h): `(handle >> 16) & 0xffff`. -/
def entityGen (handle : Nat) : Nat := (handle >>> 16) &&& 65535

-- MARK: - Pool operations (DECLARE_POOL)

/-- `initEntityPool`: all slots zeroed, free list holding
`count-1, count-2, …, 0` from bottom to top of the stack. -/
def initEntityPool : EntityPool :=
  { freeCount := ECS_MAX_ENTITIES
    freeList := (List.range ECS_MAX_ENTITIES).map (fun i => ECS_MAX_ENTITIES - (i + 1))
    data := List.replicate ECS_MAX_ENTITIES default }

/-- `newEntityFromPool`: pops the top of the free stack; the `ASSERT(freeCount)`
fatal path is `none`. -/
def newEntityFromPool (pool : EntityPool) : Option (EntityPool × Nat) :=
  if pool.freeCount = 0 then none
  else
    let fc := pool.freeCount - 1
    some ({ pool with freeCount := fc }, pool.freeList.getD fc 0)

/-- `returnEntityToPool`: pushes `id` onto the free stack; the
`ASSERT(freeCount < count)` fatal path is `none`. -/
def returnEntityToPool (pool : EntityPool) (id : Nat) : Option EntityPool :=
  if pool.freeCount < ECS_MAX_ENTITIES then
    some { pool with freeList := pool.freeList.set pool.freeCount id
                     freeCount := pool.freeCount + 1 }
  else none

/-- `newECS()` (minus the heap allocation): zeroed counters and an
initialised entity pool. -/
def newECS : ECS :=
  { entities := initEntityPool
    compData := []
    nextSystemID := 0
    systemCount := 0
    systems := List.replicate ECS_MAX_SYSTEMS default }

-- MARK: - Component Handling

/-- Position of the first descriptor whose name matches (the search in
`ecsComponentID`'s loop). -/
def scanComp (id : String) : List ComponentData → Option Nat
  | [] => none
  | c :: rest => if c.id == id then some 0 else (scanComp id rest).map (· + 1)

/-- `ecsComponentID`: linear scan of the registered component names;
returns `ECS_MAX_COMPS` when the name is absent. -/
def ecsComponentID (ecs : ECS) (id : String) : Nat :=
  (scanComp id ecs.compData).getD ECS_MAX_COMPS

/-- `ecsDeclareComponent`: returns the existing ID when the name is already
registered; otherwise (fatal `ASSERT` if the table is full) appends a fresh
zero-initialised store and returns the next sequential ID. -/
def ecsDeclareComponent (ecs : ECS) (compID : String) (size : Nat) :
    Option (ECS × Nat) :=
  let id := ecsComponentID ecs compID
  if id ≠ ECS_MAX_COMPS then some (ecs, id)
  else if ecs.compData.length < ECS_MAX_COMPS then
    let data : ComponentData :=
      { size := size, id := compID, data := List.replicate (ECS_MAX_ENTITIES * size) 0 }
    some ({ ecs with compData := ecs.compData ++ [data] }, ecs.compData.length)
  else none

-- MARK: - Entity Handling

/-- `newEntity`: aborts (`none`) when no free slot remains; otherwise pops a
slot index, rewrites its data with the slot's current generation and an
empty mask, and returns the (index, generation) handle. -/
def newEntity (ecs : ECS) : Option (ECS × Nat) :=
  if ecs.entities.freeCount = 0 then none
  else
    match newEntityFromPool ecs.entities with
    | none => none
    | some (pool, id) =>
      let gen := generation (pool.data.getD id default)
      let pool2 := { pool with data := pool.data.set id (createEntityData gen) }
      some ({ ecs with entities := pool2 }, createHandle id gen)

/-- `newEntityWithArchetype`: `newEntity` followed by overwriting the new
slot's membership mask with the (uint8) archetype. -/
def newEntityWithArchetype (ecs : ECS) (archetype : Nat) : Option (ECS × Nat) :=
  match newEntity ecs with
  | none => none
  | some (ecs1, e) =>
    let idx := entityIndex e
    let d := ecs1.entities.data.getD idx default
    some ({ ecs1 with entities :=
              { ecs1.entities with
                  data := ecs1.entities.data.set idx { d with components := u8 archetype } } },
          e)

/-- `isEntityValid`: the handle's generation equals the slot's current
generation. -/
def isEntityValid (ecs : ECS) (entity : Nat) : Bool :=
  generation (ecs.entities.data.getD (entityIndex entity) default) == entityGen entity

/-- `destroyEntity`: no-op on an invalid handle; otherwise bumps the slot
generation (uint8 wrap), clears the membership mask and releases the index
back to the pool. -/
def destroyEntity (ecs : ECS) (entity : Nat) : Option ECS :=
  if !isEntityValid ecs entity then some ecs
  else
    let id := entityIndex entity
    let gen := entityGen entity
    let pool := { ecs.entities with data := ecs.entities.data.set id (createEntityData (gen + 1)) }
    match returnEntityToPool pool id with
    | none => none
    | some pool2 => some { ecs with entities := pool2 }

/-- Addresses returned by the component accessors: a buffer identity (which
component type's store) and a byte offset into that store.  Two C pointers
returned by the accessors are equal iff buffer and offset both agree. -/
structure Ptr where
  buf : Nat
  off : Nat
deriving DecidableEq

/-- `addComponentID`: asserts `compID` in range and the handle valid, sets
the membership bit (uint8 `|=`), and returns
`compData[compID]->data + compID * compData[compID]->size` — note the
offset the code computes is `compID * size`, not `entityIndex * size`. -/
def addComponentID (ecs : ECS) (entity : Nat) (compID : Nat) : Option (ECS × Ptr) :=
  if compID < ECS_MAX_COMPS then
    if isEntityValid ecs entity then
      let id := entityIndex entity
      let d := ecs.entities.data.getD id default
      let ecs1 :=
        { ecs with entities :=
            { ecs.entities with
                data := ecs.entities.data.set id
                  { d with components := u8 (d.components ||| (1 <<< compID)) } } }
      some (ecs1, ⟨compID, compID * (ecs.compData.getD compID default).size⟩)
    else none
  else none

/-- `getComponentID`: same asserts; returns `NULL` (`none`) when the
membership bit is clear, otherwise the same address `addComponentID`
computes.  The returned state component models the (absent) writes through
the non-const `ECS *` parameter. -/
def getComponentID (ecs : ECS) (entity : Nat) (compID : Nat) :
    Option (ECS × Option Ptr) :=
  if compID < ECS_MAX_COMPS then
    if isEntityValid ecs entity then
      let id := entityIndex entity
      if (ecs.entities.data.getD id default).components &&& (1 <<< compID) = 0 then
        some (ecs, none)
      else
        some (ecs, some ⟨compID, compID * (ecs.compData.getD compID default).size⟩)
    else none
  else none

/-- `removeComponentID`: same asserts; clears the membership bit
(`components &= ~(1 << compID)` with the int-width complement, then the
uint8 store). -/
def removeComponentID (ecs : ECS) (entity : Nat) (compID : Nat) : Option ECS :=
  if compID < ECS_MAX_COMPS then
    if isEntityValid ecs entity then
      let id := entityIndex entity
      let d := ecs.entities.data.getD id default
      some { ecs with entities :=
               { ecs.entities with
                   data := ecs.entities.data.set id
                     { d with components := u8 (d.components &&& (4294967295 ^^^ (1 <<< compID))) } } }
    else none
  else none

-- MARK: - Systems and matchers

/-- `newSystem`: asserts capacity and a non-`NULL` callback, appends the
entry with id `nextSystemID++` (uint8), and — as the code is written —
returns the literal `0`, not the assigned identifier. -/
def newSystem (ecs : ECS) (mask func data : Nat) : Option (ECS × Nat) :=
  if ecs.systemCount < ECS_MAX_SYSTEMS then
    if func ≠ 0 then
      let sys : System := { id := ecs.nextSystemID, mask := u8 mask, func := func, userData := data }
      some ({ ecs with systems := ecs.systems.set ecs.systemCount sys
                       systemCount := ecs.systemCount + 1
                       nextSystemID := u8 (ecs.nextSystemID + 1) }, 0)
    else none
  else none

/-- `findSystem`: index of the first live entry whose id matches (the C
function returns the corresponding pointer `&systems[i]`). -/
def findSystem (ecs : ECS) (id : Nat) : Option Nat :=
  (List.range ecs.systemCount).find? (fun i => (ecs.systems.getD i default).id == id)

/-- `destroySystem`: asserts a non-empty table; no-op when the id is not
found; otherwise performs `memmove(sys+1, sys, (end-(sys+1))*sizeof(System))`
— copying entries `[idx, systemCount-1)` up to `[idx+1, systemCount)`,
which is what the source does (source and destination are as written in the
C, with `memmove`'s copy-as-if-buffered semantics) — then decrements the
count. -/
def destroySystem (ecs : ECS) (id : Nat) : Option ECS :=
  if ecs.systemCount > 0 then
    match findSystem ecs id with
    | none => some ecs
    | some idx =>
      let cnt := ecs.systemCount - idx - 1
      let s := ecs.systems
      let s2 := s.take (idx + 1) ++ (s.drop idx).take cnt ++ s.drop (idx + 1 + cnt)
      some { ecs with systems := s2, systemCount := ecs.systemCount - 1 }
  else none

/-- `matchEntities`: scans every slot index in ascending order, skips slots
with the `kEntityUnused` flag or whose mask misses a bit of `mask`, and
calls the iterator on the current (index, generation) handle.  The iterator
is modelled as an observer: the result is the list of handles passed to it,
in call order. -/
def matchEntities (ecs : ECS) (mask : Nat) : List Nat :=
  (List.range ECS_MAX_ENTITIES).filterMap (fun id =>
    let data := ecs.entities.data.getD id default
    if flags data &&& kEntityUnused ≠ 0 then none
    else if data.components &&& mask ≠ mask then none
    else some (createHandle id (generation data)))

-- MARK: - API traces

/-- One mutating API call, with its arguments. -/
inductive Op where
  | newE : Op
  | newEArch (archetype : Nat) : Op
  | destroyE (e : Nat) : Op
  | addComp (e c : Nat) : Op
  | removeComp (e c : Nat) : Op
  | declareComp (name : String) (size : Nat) : Op
  | newSys (mask func data : Nat) : Op
  | destroySys (id : Nat) : Op

/-- A handle argument a C caller can meaningfully pass: representable as a
`uint32_t`, and addressing a slot that exists (the C functions index
`entities.data[entityIndex(e)]` without a bounds check, so an out-of-range
index is undefined behaviour, modelled as a trap). -/
def okHandle (e : Nat) : Bool :=
  decide (e < 4294967296) && decide (entityIndex e < ECS_MAX_ENTITIES)

/-- One step of the API, dropping return values. -/
def step (ecs : ECS) : Op → Option ECS
  | .newE => (newEntity ecs).map (·.1)
  | .newEArch m => (newEntityWithArchetype ecs m).map (·.1)
  | .destroyE e => if okHandle e then destroyEntity ecs e else none
  | .addComp e c => if okHandle e then (addComponentID ecs e c).map (·.1) else none
  | .removeComp e c => if okHandle e then removeComponentID ecs e c else none
  | .declareComp n sz => (ecsDeclareComponent ecs n sz).map (·.1)
  | .newSys m f d => (newSystem ecs m f d).map (·.1)
  | .destroySys id => destroySystem ecs id

/-- Run a list of API calls from a state. -/
def runOps (ecs : ECS) : List Op → Option ECS
  | [] => some ecs
  | op :: ops =>
    match step ecs op with
    | none => none
    | some ecs1 => runOps ecs1 ops

/-- Structural well-formedness of the entity pool: the fixed array lengths,
the free-stack height bound, in-range free indices, and 8-bit info words
(every write of `info` in the source goes through `createEntityData`, whose
parameter is a `uint8_t`). -/
def WF (ecs : ECS) : Prop :=
  ecs.entities.data.length = ECS_MAX_ENTITIES ∧
  ecs.entities.freeList.length = ECS_MAX_ENTITIES ∧
  ecs.entities.freeCount ≤ ECS_MAX_ENTITIES ∧
  (∀ x ∈ ecs.entities.freeList.take ecs.entities.freeCount, x < ECS_MAX_ENTITIES) ∧
  (∀ d ∈ ecs.entities.data, d.info < 256)

instance (ecs : ECS) : Decidable (WF ecs) := by
  unfold WF; infer_instance

/-- A slot index holds a live entity: it exists and is not in the free
region of the stack (under `WF` plus `DeadZero` this is exactly
"created and not destroyed"). -/
def isLive (ecs : ECS) (idx : Nat) : Prop :=
  idx < ECS_MAX_ENTITIES ∧ idx ∉ ecs.entities.freeList.take ecs.entities.freeCount

instance (ecs : ECS) (idx : Nat) : Decidable (isLive ecs idx) := by
  unfold isLive; infer_instance

/-- Every dead (free) slot has an empty membership mask — the invariant the
matcher relies on to skip destroyed and never-created slots. -/
def DeadZero (ecs : ECS) : Prop :=
  ∀ x ∈ ecs.entities.freeList.take ecs.entities.freeCount,
    (ecs.entities.data.getD x default).components = 0

instance (ecs : ECS) : Decidable (DeadZero ecs) := by
  unfold DeadZero; infer_instance

/-- Every slot's info word fits in 8 bits: the only writes the source ever
makes go through `createEntityData`, whose parameter is a `uint8_t`. -/
def InfoInv (ecs : ECS) : Prop :=
  ∀ d ∈ ecs.entities.data, d.info < 256

instance (ecs : ECS) : Decidable (InfoInv ecs) := by
  unfold InfoInv; infer_instance

/-- The current generation stored at a slot index. -/
def genOf (ecs : ECS) (idx : Nat) : Nat :=
  generation (ecs.entities.data.getD idx default)

/-- Does this API call, executed in this state, destroy the entity in slot
`idx` (and hence bump that slot's generation)? -/
def destroysSlot (s : ECS) (op : Op) (idx : Nat) : Bool :=
  match op with
  | .destroyE e => entityIndex e == idx && isEntityValid s e
  | _ => false

/-- Number of destroy/reuse cycles slot `idx` undergoes while running
`ops` from `s` (counting only the destroys that actually bump the
generation). -/
def slotDestroys (s : ECS) (ops : List Op) (idx : Nat) : Nat :=
  match ops with
  | [] => 0
  | op :: rest =>
    match step s op with
    | none => 0
    | some s1 => (if destroysSlot s op idx then 1 else 0) + slotDestroys s1 rest idx

-- MARK: - Concrete states used to evaluate the model

/-- A registry with one live entity (slot 0, generation 0). -/
def wE1 : ECS × Nat := (newEntity newECS).getD (newECS, 0)

/-- `wE1` after destroying its entity again. -/
def wE1d : ECS := (destroyEntity wE1.1 wE1.2).getD newECS

/-- `newECS` after declaring component "A" of size 4 (it receives ID 0). -/
def wC1ecs0 : ECS := ((ecsDeclareComponent newECS "A" 4).getD (newECS, 0)).1

/-- `wC1ecs0` plus a first entity (slot 0). -/
def wC1s1 : ECS × Nat := (newEntity wC1ecs0).getD (newECS, 0)

/-- `wC1s1` plus a second entity (slot 1). -/
def wC1s2 : ECS × Nat := (newEntity wC1s1.1).getD (newECS, 0)

/-- Attaching component 0 to the first entity. -/
def wC1p1 : ECS × Ptr := (addComponentID wC1s2.1 wC1s1.2 0).getD (newECS, ⟨0, 0⟩)

/-- Attaching component 0 to the second entity. -/
def wC1p2 : ECS × Ptr := (addComponentID wC1p1.1 wC1s2.2 0).getD (newECS, ⟨0, 0⟩)

/-- A registry with one live entity (slot 0) holding component 0: reached
by `newEntity` followed by `addComponentID` on the returned handle
(`createHandle 0 0 = 0`). -/
def wC2 : ECS := (runOps newECS [Op.newE, Op.addComp 0 0]).getD newECS

/-- `newECS` after registering one system (mask 3). -/
def wC3s1 : ECS × Nat := (newSystem newECS 3 1 0).getD (newECS, 99)

/-- `wC3s1` after registering a second system (mask 5). -/
def wC3s2 : ECS × Nat := (newSystem wC3s1.1 5 1 0).getD (newECS, 99)

/-- `wC3s2` after `destroySystem` with id 0. -/
def wC4 : ECS := (destroySystem wC3s2.1 0).getD newECS

-- MARK: - Arithmetic helpers

theorem pow16 : (65536 : Nat) = 2 ^ 16 := by norm_num

theorem pow16m1 : (65535 : Nat) = 2 ^ 16 - 1 := by norm_num

theorem pow8 : (256 : Nat) = 2 ^ 8 := by norm_num

theorem u8_lt (n : Nat) : u8 n < 256 := Nat.mod_lt _ (by norm_num)

theorem u16_lt (n : Nat) : u16 n < 65536 := Nat.mod_lt _ (by norm_num)

theorem land_65535_eq_mod (x : Nat) : x &&& 65535 = x % 65536 := by
  have h := Nat.and_pow_two_sub_one_eq_mod x 16
  norm_num at h
  exact h

/-- The slot-index field of a freshly built handle. -/
theorem entityIndex_createHandle (i g : Nat) : entityIndex (createHandle i g) = u16 i := by
  unfold entityIndex createHandle u16 u8
  rw [pow16, pow16m1, pow8]
  apply Nat.eq_of_testBit_eq
  intro j
  simp only [Nat.testBit_and, Nat.testBit_or, Nat.testBit_shiftLeft, Nat.testBit_mod_two_pow,
    Nat.testBit_two_pow_sub_one]
  by_cases hj : j < 16
  · have h16 : ¬ (16 ≤ j) := by omega
    simp [hj, h16]
  · simp [hj]

/-- The generation field of a freshly built handle. -/
theorem entityGen_createHandle (i g : Nat) : entityGen (createHandle i g) = u8 g := by
  unfold entityGen createHandle u16 u8
  rw [pow16, pow16m1, pow8]
  apply Nat.eq_of_testBit_eq
  intro j
  simp only [Nat.testBit_and, Nat.testBit_or, Nat.testBit_shiftLeft, Nat.testBit_shiftRight,
    Nat.testBit_mod_two_pow, Nat.testBit_two_pow_sub_one]
  have h2 : (16 : Nat) ≤ 16 + j := by omega
  have h3 : 16 + j - 16 = j := by omega
  have h4 : ¬ (16 + j < 16) := by omega
  by_cases hj : j < 16
  · simp [h2, h3, h4, hj]
  · have h8 : ¬ (j < 8) := by omega
    simp [h2, h3, h4, hj, h8]

theorem generation_eq_mod (d : EntityData) : generation d = d.info % 256 := by
  unfold generation u8
  rw [land_65535_eq_mod, Nat.mod_mod_of_dvd _ (by norm_num)]

theorem generation_lt (d : EntityData) : generation d < 256 := by
  rw [generation_eq_mod]; exact Nat.mod_lt _ (by norm_num)

/-- An info word below 2^16 has no flag bits. -/
theorem flags_eq_zero (d : EntityData) (h : d.info < 65536) : flags d = 0 := by
  unfold flags
  have : d.info >>> 16 = 0 := by
    rw [Nat.shiftRight_eq_div_pow]
    exact Nat.div_eq_of_lt (by rw [pow16] at h; exact h)
  simp [this]

/-- Handles built by the source fit in a `uint32_t` (in fact in 24 bits). -/
theorem createHandle_lt (i g : Nat) : createHandle i g < 4294967296 := by
  unfold createHandle
  have h1 : (u8 g) <<< 16 < 2 ^ 32 := by
    rw [Nat.shiftLeft_eq]
    have := u8_lt g
    calc u8 g * 2 ^ 16 < 256 * 2 ^ 16 := by
          exact (Nat.mul_lt_mul_right (by norm_num)).mpr this
      _ ≤ 2 ^ 32 := by norm_num
  have h2 : u16 i < 2 ^ 32 := lt_of_lt_of_le (u16_lt i) (by norm_num)
  have := Nat.or_lt_two_pow h1 h2
  norm_num at this ⊢
  exact this

-- MARK: - List and bit helpers

theorem getD_set_self {α : Type} (l : List α) (i : Nat) (a d : α) (h : i < l.length) :
    (l.set i a).getD i d = a := by
  rw [List.getD_eq_getElem?_getD, List.getElem?_set_self', List.getElem?_eq_getElem h]
  rfl

theorem getD_set_ne {α : Type} (l : List α) (i j : Nat) (a d : α) (h : i ≠ j) :
    (l.set i a).getD j d = l.getD j d := by
  rw [List.getD_eq_getElem?_getD, List.getElem?_set_ne h, List.getD_eq_getElem?_getD]

theorem and_shiftLeft_eq_zero_iff (x i : Nat) :
    x &&& (1 <<< i) = 0 ↔ x.testBit i = false := by
  rw [Nat.one_shiftLeft, Nat.and_two_pow]
  cases h : x.testBit i <;> simp [h]

theorem testBit_u8 (x j : Nat) : (u8 x).testBit j = (decide (j < 8) && x.testBit j) := by
  unfold u8; rw [pow8]; exact Nat.testBit_mod_two_pow x 8 j

-- MARK: - Component registry lemmas

theorem scanComp_eq_none_iff (id : String) (l : List ComponentData) :
    scanComp id l = none ↔ ∀ c ∈ l, c.id ≠ id := by
  induction l with
  | nil => simp [scanComp]
  | cons c rest ih =>
    unfold scanComp
    by_cases hc : c.id == id
    · simp [hc]
      exact fun h => absurd (by simpa using hc) h
    · simp only [hc, if_neg, Bool.false_eq_true, not_false_eq_true, if_false]
      simp only [Option.map_eq_none', ih, List.mem_cons]
      constructor
      · intro h x hx
        rcases hx with rfl | hx
        · simpa using hc
        · exact h x hx
      · intro h x hx
        exact h x (Or.inr hx)

theorem scanComp_some_lt (id : String) (l : List ComponentData) (k : Nat)
    (h : scanComp id l = some k) : k < l.length := by
  induction l generalizing k with
  | nil => simp [scanComp] at h
  | cons c rest ih =>
    unfold scanComp at h
    by_cases hc : c.id == id
    · simp [hc] at h
      simp only [List.length_cons]
      omega
    · simp only [hc, Bool.false_eq_true, if_false, Option.map_eq_some'] at h
      obtain ⟨k', hk', rfl⟩ := h
      have := ih k' hk'
      simp only [List.length_cons]
      omega

theorem scanComp_append_none (id : String) (l : List ComponentData) (x : ComponentData)
    (h : scanComp id l = none) :
    scanComp id (l ++ [x]) = if x.id == id then some l.length else none := by
  induction l with
  | nil => simp [scanComp]
  | cons c rest ih =>
    unfold scanComp at h ⊢
    by_cases hc : c.id == id
    · simp [hc] at h
    · simp only [hc, Bool.false_eq_true, if_false, Option.map_eq_none'] at h
      simp only [List.cons_append, hc, Bool.false_eq_true, if_false, ih h]
      by_cases hx : x.id == id
      · simp [hx]
      · simp [hx]

-- MARK: - Characterizations of the mutating operations

theorem newEntity_eq (s s' : ECS) (e : Nat) (h : newEntity s = some (s', e)) :
    s.entities.freeCount ≠ 0 ∧
    s' = { s with entities :=
      { freeCount := s.entities.freeCount - 1
        freeList := s.entities.freeList
        data := s.entities.data.set (s.entities.freeList.getD (s.entities.freeCount - 1) 0)
          (createEntityData (genOf s (s.entities.freeList.getD (s.entities.freeCount - 1) 0))) } } ∧
    e = createHandle (s.entities.freeList.getD (s.entities.freeCount - 1) 0)
      (genOf s (s.entities.freeList.getD (s.entities.freeCount - 1) 0)) := by
  unfold newEntity newEntityFromPool at h
  split at h
  · exact absurd h (by simp)
  · rename_i hfc
    dsimp only at h
    injection h with h1
    injection h1 with hs he
    refine ⟨hfc, ?_, ?_⟩
    · rw [← hs]
      rfl
    · rw [← he]
      rfl

theorem newEntityWithArchetype_eq (s s' : ECS) (a e : Nat)
    (h : newEntityWithArchetype s a = some (s', e)) :
    ∃ s1 : ECS, newEntity s = some (s1, e) ∧
      s' = { s1 with entities :=
        { s1.entities with
            data := s1.entities.data.set (entityIndex e)
              ⟨(s1.entities.data.getD (entityIndex e) default).info, u8 a⟩ } } := by
  unfold newEntityWithArchetype at h
  split at h
  · exact absurd h (by simp)
  · rename_i s1 e1 hne
    dsimp only at h
    injection h with h1
    injection h1 with hs he
    subst he
    refine ⟨s1, hne, ?_⟩
    rw [← hs]

theorem destroyEntity_eq (s s' : ECS) (e : Nat) (h : destroyEntity s e = some s') :
    (isEntityValid s e = false ∧ s' = s) ∨
    (isEntityValid s e = true ∧
      s.entities.freeCount < ECS_MAX_ENTITIES ∧
      s' = { s with entities :=
        { freeCount := s.entities.freeCount + 1
          freeList := s.entities.freeList.set s.entities.freeCount (entityIndex e)
          data := s.entities.data.set (entityIndex e)
            (createEntityData (entityGen e + 1)) } }) := by
  unfold destroyEntity returnEntityToPool at h
  split at h
  · rename_i hv
    left
    simp only [Bool.not_eq_true'] at hv
    injection h with h1
    exact ⟨hv, h1.symm⟩
  · rename_i hv
    right
    simp at hv
    dsimp only at h
    split at h
    · exact absurd h (by simp)
    · rename_i pool2 heq
      injection h with h1
      split at heq
      · rename_i hfc
        injection heq with h2
        refine ⟨hv, hfc, ?_⟩
        rw [← h1, ← h2]
      · exact absurd heq (by simp)

theorem addComponentID_eq (s s' : ECS) (e c : Nat) (p : Ptr)
    (h : addComponentID s e c = some (s', p)) :
    c < ECS_MAX_COMPS ∧ isEntityValid s e = true ∧
    s' = { s with entities :=
      { s.entities with
          data := s.entities.data.set (entityIndex e)
            ⟨(s.entities.data.getD (entityIndex e) default).info,
              u8 ((s.entities.data.getD (entityIndex e) default).components ||| (1 <<< c))⟩ } } := by
  unfold addComponentID at h
  split at h
  · rename_i hc
    split at h
    · rename_i hv
      dsimp only at h
      injection h with h1
      injection h1 with hs hp
      exact ⟨hc, hv, hs.symm⟩
    · exact absurd h (by simp)
  · exact absurd h (by simp)

theorem removeComponentID_eq (s s' : ECS) (e c : Nat)
    (h : removeComponentID s e c = some s') :
    c < ECS_MAX_COMPS ∧ isEntityValid s e = true ∧
    s' = { s with entities :=
      { s.entities with
          data := s.entities.data.set (entityIndex e)
            ⟨(s.entities.data.getD (entityIndex e) default).info,
              u8 ((s.entities.data.getD (entityIndex e) default).components
                &&& (4294967295 ^^^ (1 <<< c)))⟩ } } := by
  unfold removeComponentID at h
  split at h
  · rename_i hc
    split at h
    · rename_i hv
      dsimp only at h
      injection h with h1
      exact ⟨hc, hv, h1.symm⟩
    · exact absurd h (by simp)
  · exact absurd h (by simp)

theorem ecsDeclareComponent_entities (s s' : ECS) (n : String) (sz i : Nat)
    (h : ecsDeclareComponent s n sz = some (s', i)) : s'.entities = s.entities := by
  unfold ecsDeclareComponent at h
  dsimp only at h
  split at h
  · injection h with h1
    injection h1 with hs hi
    rw [← hs]
  · split at h
    · injection h with h1
      injection h1 with hs hi
      rw [← hs]
    · exact absurd h (by simp)

theorem newSystem_entities (s s' : ECS) (m f d r : Nat)
    (h : newSystem s m f d = some (s', r)) : s'.entities = s.entities := by
  unfold newSystem at h
  split at h
  · split at h
    · injection h with h1
      injection h1 with hs hr
      rw [← hs]
    · exact absurd h (by simp)
  · exact absurd h (by simp)

theorem destroySystem_entities (s s' : ECS) (i : Nat)
    (h : destroySystem s i = some s') : s'.entities = s.entities := by
  unfold destroySystem at h
  split at h
  · split at h
    · injection h with h1
      rw [← h1]
    · injection h with h1
      rw [← h1]
  · exact absurd h (by simp)

-- MARK: - Invariant preservation

theorem forall_mem_set {α : Type} {P : α → Prop} {l : List α} {i : Nat} {v : α}
    (hl : ∀ d ∈ l, P d) (hv : P v) : ∀ d ∈ l.set i v, P d := by
  intro d hd
  rcases List.mem_or_eq_of_mem_set hd with hm | rfl
  · exact hl d hm
  · exact hv

theorem getD_mem_or_eq {α : Type} (l : List α) (i : Nat) (d : α) :
    l.getD i d ∈ l ∨ l.getD i d = d := by
  by_cases hlt : i < l.length
  · left
    rw [List.getD_eq_getElem l d hlt]
    exact List.getElem_mem hlt
  · right
    exact List.getD_eq_default l d (Nat.le_of_not_lt hlt)

theorem mem_take_mono {α : Type} {l : List α} {m n : Nat} (hmn : m ≤ n) :
    ∀ x ∈ l.take m, x ∈ l.take n := by
  intro x hx
  have heq : (l.take n).take m = l.take m := by
    rw [List.take_take, Nat.min_eq_left hmn]
  rw [← heq] at hx
  exact List.take_subset _ _ hx

theorem getD_mem_take {α : Type} (l : List α) (i n : Nat) (d : α)
    (hin : i < n) (hlen : i < l.length) : l.getD i d ∈ l.take n := by
  rw [List.getD_eq_getElem l d hlen]
  have hlen2 : i < (l.take n).length := by
    rw [List.length_take]
    omega
  have h3 := List.getElem_mem hlen2
  rwa [List.getElem_take] at h3

theorem take_succ_set {α : Type} (l : List α) (n : Nat) (v : α) (hn : n < l.length) :
    (l.set n v).take (n + 1) = l.take n ++ [v] := by
  rw [List.set_eq_take_cons_drop v hn, List.take_append_eq_append_take, List.take_take,
    List.length_take, Nat.min_eq_left (Nat.le_of_lt hn),
    Nat.min_eq_right (by omega : n ≤ n + 1)]
  have h1 : n + 1 - n = 1 := by omega
  rw [h1]
  rfl

theorem infoInv_getD (s : ECS) (hinv : InfoInv s) (idx : Nat) :
    (s.entities.data.getD idx default).info < 256 := by
  rcases getD_mem_or_eq s.entities.data idx default with hm | he
  · exact hinv _ hm
  · rw [he]; decide

theorem infoInv_newEntity (s s' : ECS) (e : Nat) (hinv : InfoInv s)
    (h : newEntity s = some (s', e)) : InfoInv s' := by
  obtain ⟨-, rfl, -⟩ := newEntity_eq s s' e h
  exact forall_mem_set hinv (u8_lt _)

theorem infoInv_step (s s' : ECS) (op : Op) (hinv : InfoInv s)
    (h : step s op = some s') : InfoInv s' := by
  cases op with
  | newE =>
    simp only [step, Option.map_eq_some'] at h
    obtain ⟨⟨s1, e⟩, hne, hs⟩ := h
    cases hs
    exact infoInv_newEntity s s1 e hinv hne
  | newEArch m =>
    simp only [step, Option.map_eq_some'] at h
    obtain ⟨⟨s1, e⟩, hne, hs⟩ := h
    cases hs
    obtain ⟨s0, hne0, rfl⟩ := newEntityWithArchetype_eq s s1 m e hne
    have h0 := infoInv_newEntity s s0 e hinv hne0
    exact forall_mem_set h0 (infoInv_getD s0 h0 _)
  | destroyE e =>
    simp only [step] at h
    split at h
    · rcases destroyEntity_eq s s' e h with ⟨-, rfl⟩ | ⟨-, -, rfl⟩
      · exact hinv
      · exact forall_mem_set hinv (u8_lt _)
    · exact absurd h (by simp)
  | addComp e c =>
    simp only [step] at h
    split at h
    · simp only [Option.map_eq_some'] at h
      obtain ⟨⟨s1, p⟩, ha, hs⟩ := h
      cases hs
      obtain ⟨-, -, rfl⟩ := addComponentID_eq s s1 e c p ha
      exact forall_mem_set hinv (infoInv_getD s hinv _)
    · exact absurd h (by simp)
  | removeComp e c =>
    simp only [step] at h
    split at h
    · obtain ⟨-, -, rfl⟩ := removeComponentID_eq s s' e c h
      exact forall_mem_set hinv (infoInv_getD s hinv _)
    · exact absurd h (by simp)
  | declareComp n sz =>
    simp only [step, Option.map_eq_some'] at h
    obtain ⟨⟨s1, i⟩, hd, hs⟩ := h
    cases hs
    have he := ecsDeclareComponent_entities s s1 n sz i hd
    unfold InfoInv
    rw [he]
    exact hinv
  | newSys m f d =>
    simp only [step, Option.map_eq_some'] at h
    obtain ⟨⟨s1, r⟩, hd, hs⟩ := h
    cases hs
    have he := newSystem_entities s s1 m f d r hd
    unfold InfoInv
    rw [he]
    exact hinv
  | destroySys i =>
    simp only [step] at h
    have he := destroySystem_entities s s' i h
    unfold InfoInv
    rw [he]
    exact hinv

theorem infoInv_run (ops : List Op) :
    ∀ s s' : ECS, InfoInv s → runOps s ops = some s' → InfoInv s' := by
  induction ops with
  | nil =>
    intro s s' hinv h
    unfold runOps at h
    injection h with h1
    rw [← h1]
    exact hinv
  | cons op ops ih =>
    intro s s' hinv h
    unfold runOps at h
    split at h
    · exact absurd h (by simp)
    · rename_i s1 hst
      exact ih s1 s' (infoInv_step s s1 op hinv hst) h

theorem wf_info (s : ECS) (hwf : WF s) : InfoInv s := hwf.2.2.2.2

theorem wf_newEntity (s s' : ECS) (e : Nat) (hwf : WF s)
    (h : newEntity s = some (s', e)) : WF s' := by
  obtain ⟨hfc0, rfl, -⟩ := newEntity_eq s s' e h
  obtain ⟨hdl, hfl, hfc, hfree, hinfo⟩ := hwf
  refine ⟨?_, hfl, by dsimp only; omega, ?_, forall_mem_set hinfo (u8_lt _)⟩
  · dsimp only
    rw [List.length_set]
    exact hdl
  · dsimp only
    intro x hx
    exact hfree x (mem_take_mono (by omega) x hx)

theorem wf_newEntityWithArchetype (s s' : ECS) (a e : Nat) (hwf : WF s)
    (h : newEntityWithArchetype s a = some (s', e)) : WF s' := by
  obtain ⟨s0, hne, rfl⟩ := newEntityWithArchetype_eq s s' a e h
  have hwf0 := wf_newEntity s s0 e hwf hne
  obtain ⟨hdl, hfl, hfc, hfree, hinfo⟩ := hwf0
  refine ⟨?_, hfl, hfc, hfree, forall_mem_set hinfo (infoInv_getD s0 hinfo _)⟩
  dsimp only
  rw [List.length_set]
  exact hdl

theorem wf_destroyEntity (s s' : ECS) (e : Nat) (hwf : WF s)
    (hidx : entityIndex e < ECS_MAX_ENTITIES)
    (h : destroyEntity s e = some s') : WF s' := by
  rcases destroyEntity_eq s s' e h with ⟨-, rfl⟩ | ⟨-, hfc, rfl⟩
  · exact hwf
  · obtain ⟨hdl, hfl, hfcle, hfree, hinfo⟩ := hwf
    refine ⟨?_, ?_, by dsimp only; omega, ?_, forall_mem_set hinfo (u8_lt _)⟩
    · dsimp only
      rw [List.length_set]
      exact hdl
    · dsimp only
      rw [List.length_set]
      exact hfl
    · dsimp only
      intro x hx
      rw [take_succ_set _ _ _ (by rw [hfl]; exact hfc)] at hx
      rcases List.mem_append.mp hx with h1 | h2
      · exact hfree x h1
      · rw [List.mem_singleton] at h2
        rw [h2]
        exact hidx

theorem wf_addComponentID (s s' : ECS) (e c : Nat) (p : Ptr) (hwf : WF s)
    (h : addComponentID s e c = some (s', p)) : WF s' := by
  obtain ⟨-, -, rfl⟩ := addComponentID_eq s s' e c p h
  obtain ⟨hdl, hfl, hfc, hfree, hinfo⟩ := hwf
  refine ⟨?_, hfl, hfc, hfree, forall_mem_set hinfo (infoInv_getD s hinfo _)⟩
  dsimp only
  rw [List.length_set]
  exact hdl

theorem wf_removeComponentID (s s' : ECS) (e c : Nat) (hwf : WF s)
    (h : removeComponentID s e c = some s') : WF s' := by
  obtain ⟨-, -, rfl⟩ := removeComponentID_eq s s' e c h
  obtain ⟨hdl, hfl, hfc, hfree, hinfo⟩ := hwf
  refine ⟨?_, hfl, hfc, hfree, forall_mem_set hinfo (infoInv_getD s hinfo _)⟩
  dsimp only
  rw [List.length_set]
  exact hdl

theorem wf_entities_eq (s s' : ECS) (hwf : WF s) (h : s'.entities = s.entities) : WF s' := by
  unfold WF
  rw [h]
  exact hwf

theorem wf_step (s s' : ECS) (op : Op) (hwf : WF s) (h : step s op = some s') : WF s' := by
  cases op with
  | newE =>
    simp only [step, Option.map_eq_some'] at h
    obtain ⟨⟨s1, e⟩, hne, hs⟩ := h
    cases hs
    exact wf_newEntity s s1 e hwf hne
  | newEArch m =>
    simp only [step, Option.map_eq_some'] at h
    obtain ⟨⟨s1, e⟩, hne, hs⟩ := h
    cases hs
    exact wf_newEntityWithArchetype s s1 m e hwf hne
  | destroyE e =>
    simp only [step] at h
    split at h
    · rename_i hok
      simp only [okHandle, Bool.and_eq_true, decide_eq_true_eq] at hok
      exact wf_destroyEntity s s' e hwf hok.2 h
    · exact absurd h (by simp)
  | addComp e c =>
    simp only [step] at h
    split at h
    · simp only [Option.map_eq_some'] at h
      obtain ⟨⟨s1, p⟩, ha, hs⟩ := h
      cases hs
      exact wf_addComponentID s s1 e c p hwf ha
    · exact absurd h (by simp)
  | removeComp e c =>
    simp only [step] at h
    split at h
    · exact wf_removeComponentID s s' e c hwf h
    · exact absurd h (by simp)
  | declareComp n sz =>
    simp only [step, Option.map_eq_some'] at h
    obtain ⟨⟨s1, i⟩, hd, hs⟩ := h
    cases hs
    exact wf_entities_eq s s1 hwf (ecsDeclareComponent_entities s s1 n sz i hd)
  | newSys m f d =>
    simp only [step, Option.map_eq_some'] at h
    obtain ⟨⟨s1, r⟩, hd, hs⟩ := h
    cases hs
    exact wf_entities_eq s s1 hwf (newSystem_entities s s1 m f d r hd)
  | destroySys i =>
    simp only [step] at h
    exact wf_entities_eq s s' hwf (destroySystem_entities s s' i h)

theorem wf_run (ops : List Op) :
    ∀ s s' : ECS, WF s → runOps s ops = some s' → WF s' := by
  induction ops with
  | nil =>
    intro s s' hwf h
    unfold runOps at h
    injection h with h1
    rw [← h1]
    exact hwf
  | cons op ops ih =>
    intro s s' hwf h
    unfold runOps at h
    split at h
    · exact absurd h (by simp)
    · rename_i s1 hst
      exact ih s1 s' (wf_step s s1 op hwf hst) h

-- MARK: - Generation tracking

theorem generation_createEntityData (g : Nat) : generation (createEntityData g) = u8 g := by
  unfold generation createEntityData u8
  dsimp only
  rw [land_65535_eq_mod]
  omega

theorem newEntity_handle (s s' : ECS) (e : Nat) (hwf : WF s)
    (h : newEntity s = some (s', e)) :
    entityIndex e < ECS_MAX_ENTITIES ∧ entityGen e < 256 ∧
    genOf s' (entityIndex e) = entityGen e ∧ isEntityValid s' e = true := by
  obtain ⟨hfc0, rfl, rfl⟩ := newEntity_eq s s' e h
  obtain ⟨hdl, hfl, hfc, hfree, hinfo⟩ := hwf
  have hpop : s.entities.freeList.getD (s.entities.freeCount - 1) 0 < ECS_MAX_ENTITIES := by
    refine hfree _ (getD_mem_take _ _ _ _ (by omega) ?_)
    rw [hfl]
    unfold ECS_MAX_ENTITIES at hfc ⊢
    omega
  have hglt : genOf s (s.entities.freeList.getD (s.entities.freeCount - 1) 0) < 256 :=
    generation_lt _
  have hie : entityIndex (createHandle (s.entities.freeList.getD (s.entities.freeCount - 1) 0)
      (genOf s (s.entities.freeList.getD (s.entities.freeCount - 1) 0))) =
      s.entities.freeList.getD (s.entities.freeCount - 1) 0 := by
    rw [entityIndex_createHandle]
    unfold u16
    rw [Nat.mod_eq_of_lt (lt_of_lt_of_le hpop (by norm_num [ECS_MAX_ENTITIES]))]
  have hge : entityGen (createHandle (s.entities.freeList.getD (s.entities.freeCount - 1) 0)
      (genOf s (s.entities.freeList.getD (s.entities.freeCount - 1) 0))) =
      genOf s (s.entities.freeList.getD (s.entities.freeCount - 1) 0) := by
    rw [entityGen_createHandle]
    exact Nat.mod_eq_of_lt hglt
  have hgof : genOf { s with entities :=
      { freeCount := s.entities.freeCount - 1
        freeList := s.entities.freeList
        data := s.entities.data.set (s.entities.freeList.getD (s.entities.freeCount - 1) 0)
          (createEntityData (genOf s (s.entities.freeList.getD (s.entities.freeCount - 1) 0))) } }
      (s.entities.freeList.getD (s.entities.freeCount - 1) 0) =
      genOf s (s.entities.freeList.getD (s.entities.freeCount - 1) 0) := by
    unfold genOf
    dsimp only
    rw [getD_set_self _ _ _ _ (by rw [hdl]; exact hpop), generation_createEntityData]
    exact Nat.mod_eq_of_lt (generation_lt _)
  refine ⟨?_, ?_, ?_, ?_⟩
  · rw [hie]
    exact hpop
  · rw [hge]
    exact hglt
  · rw [hie, hge]
    exact hgof
  · show (genOf _ (entityIndex _) == entityGen _) = true
    rw [hie, hge, hgof]
    exact beq_self_eq_true _

theorem genOf_newEntity (s s' : ECS) (e idx : Nat) (hwf : WF s)
    (h : newEntity s = some (s', e)) : genOf s' idx = genOf s idx := by
  obtain ⟨hfc0, rfl, -⟩ := newEntity_eq s s' e h
  by_cases hidx : idx = s.entities.freeList.getD (s.entities.freeCount - 1) 0
  · have hpop : s.entities.freeList.getD (s.entities.freeCount - 1) 0 < ECS_MAX_ENTITIES := by
      refine hwf.2.2.2.1 _ (getD_mem_take _ _ _ _ (by omega) ?_)
      rw [hwf.2.1]
      have hfc := hwf.2.2.1
      omega
    subst hidx
    unfold genOf
    dsimp only
    rw [getD_set_self _ _ _ _ (by rw [hwf.1]; exact hpop), generation_createEntityData]
    exact Nat.mod_eq_of_lt (generation_lt _)
  · unfold genOf
    dsimp only
    rw [getD_set_ne _ _ _ _ _ (fun hh => hidx hh.symm)]

theorem genOf_destroyEntity_self (s s' : ECS) (e : Nat) (hwf : WF s)
    (hidx : entityIndex e < ECS_MAX_ENTITIES)
    (hv : isEntityValid s e = true)
    (h : destroyEntity s e = some s') :
    genOf s' (entityIndex e) = (entityGen e + 1) % 256 := by
  rcases destroyEntity_eq s s' e h with ⟨hv', -⟩ | ⟨-, -, rfl⟩
  · rw [hv] at hv'
    cases hv'
  · unfold genOf
    dsimp only
    rw [getD_set_self _ _ _ _ (by rw [hwf.1]; exact hidx), generation_createEntityData]
    rfl

theorem genOf_step (s s' : ECS) (op : Op) (idx : Nat) (hwf : WF s)
    (h : step s op = some s') :
    genOf s' idx = if destroysSlot s op idx then (genOf s idx + 1) % 256 else genOf s idx := by
  cases op with
  | newE =>
    rw [show destroysSlot s Op.newE idx = false from rfl, if_neg (by simp)]
    simp only [step, Option.map_eq_some'] at h
    obtain ⟨⟨s1, e⟩, hne, hs⟩ := h
    cases hs
    exact genOf_newEntity s s1 e idx hwf hne
  | newEArch m =>
    rw [show destroysSlot s (Op.newEArch m) idx = false from rfl, if_neg (by simp)]
    simp only [step, Option.map_eq_some'] at h
    obtain ⟨⟨s1, e⟩, hne, hs⟩ := h
    cases hs
    obtain ⟨s0, hne0, rfl⟩ := newEntityWithArchetype_eq s s1 m e hne
    have h0 := genOf_newEntity s s0 e idx hwf hne0
    rw [← h0]
    unfold genOf
    dsimp only
    by_cases hii : idx = entityIndex e
    · rw [hii]
      by_cases hlt : entityIndex e < s0.entities.data.length
      · rw [getD_set_self _ _ _ _ hlt]
        rfl
      · rw [List.set_eq_of_length_le (Nat.le_of_not_lt hlt)]
    · rw [getD_set_ne _ _ _ _ _ (fun hh => hii hh.symm)]
  | destroyE e =>
    simp only [step] at h
    split at h
    · rename_i hok
      simp only [okHandle, Bool.and_eq_true, decide_eq_true_eq] at hok
      simp only [destroysSlot]
      rcases destroyEntity_eq s s' e h with ⟨hv', rfl⟩ | ⟨hv', hfc, rfl⟩
      · simp [hv']
      · by_cases hii : entityIndex e = idx
        · have hcond : (entityIndex e == idx && isEntityValid s e) = true := by
            rw [hv', hii]
            simp
          rw [if_pos hcond]
          have hgd := genOf_destroyEntity_self s _ e hwf hok.2 hv' h
          have hbq : (genOf s (entityIndex e) == entityGen e) = true := hv'
          have hge := eq_of_beq hbq
          rw [← hii, hgd, hge]
        · have hcond : (entityIndex e == idx && isEntityValid s e) = false := by
            simp [hii]
          rw [if_neg (by rw [hcond]; simp)]
          unfold genOf
          dsimp only
          rw [getD_set_ne _ _ _ _ _ hii]
    · exact absurd h (by simp)
  | addComp e c =>
    rw [show destroysSlot s (Op.addComp e c) idx = false from rfl, if_neg (by simp)]
    simp only [step] at h
    split at h
    · simp only [Option.map_eq_some'] at h
      obtain ⟨⟨s1, p⟩, ha, hs⟩ := h
      cases hs
      obtain ⟨-, -, rfl⟩ := addComponentID_eq s s1 e c p ha
      unfold genOf
      dsimp only
      by_cases hii : idx = entityIndex e
      · rw [hii]
        by_cases hlt : entityIndex e < s.entities.data.length
        · rw [getD_set_self _ _ _ _ hlt]
          rfl
        · rw [List.set_eq_of_length_le (Nat.le_of_not_lt hlt)]
      · rw [getD_set_ne _ _ _ _ _ (fun hh => hii hh.symm)]
    · exact absurd h (by simp)
  | removeComp e c =>
    rw [show destroysSlot s (Op.removeComp e c) idx = false from rfl, if_neg (by simp)]
    simp only [step] at h
    split at h
    · obtain ⟨-, -, rfl⟩ := removeComponentID_eq s s' e c h
      unfold genOf
      dsimp only
      by_cases hii : idx = entityIndex e
      · rw [hii]
        by_cases hlt : entityIndex e < s.entities.data.length
        · rw [getD_set_self _ _ _ _ hlt]
          rfl
        · rw [List.set_eq_of_length_le (Nat.le_of_not_lt hlt)]
      · rw [getD_set_ne _ _ _ _ _ (fun hh => hii hh.symm)]
    · exact absurd h (by simp)
  | declareComp n sz =>
    rw [show destroysSlot s (Op.declareComp n sz) idx = false from rfl, if_neg (by simp)]
    simp only [step, Option.map_eq_some'] at h
    obtain ⟨⟨s1, i⟩, hd, hs⟩ := h
    cases hs
    unfold genOf
    rw [ecsDeclareComponent_entities s s1 n sz i hd]
  | newSys m f d =>
    rw [show destroysSlot s (Op.newSys m f d) idx = false from rfl, if_neg (by simp)]
    simp only [step, Option.map_eq_some'] at h
    obtain ⟨⟨s1, r⟩, hd, hs⟩ := h
    cases hs
    unfold genOf
    rw [newSystem_entities s s1 m f d r hd]
  | destroySys i =>
    rw [show destroysSlot s (Op.destroySys i) idx = false from rfl, if_neg (by simp)]
    simp only [step] at h
    unfold genOf
    rw [destroySystem_entities s s' i h]

theorem genOf_run (ops : List Op) :
    ∀ (s s' : ECS) (idx : Nat), WF s → runOps s ops = some s' →
      genOf s' idx = (genOf s idx + slotDestroys s ops idx) % 256 := by
  induction ops with
  | nil =>
    intro s s' idx hwf h
    unfold runOps at h
    injection h with h1
    rw [← h1]
    unfold slotDestroys
    have hlt : genOf s idx < 256 := generation_lt _
    omega
  | cons op ops ih =>
    intro s s' idx hwf h
    unfold runOps at h
    split at h
    · exact absurd h (by simp)
    · rename_i s1 hst
      have hg := genOf_step s s1 op idx hwf hst
      have hrec := ih s1 s' idx (wf_step s s1 op hwf hst) h
      unfold slotDestroys
      rw [hst]
      dsimp only
      by_cases hd : destroysSlot s op idx
      · rw [if_pos hd] at hg
        rw [if_pos hd, hrec, hg]
        omega
      · rw [if_neg hd] at hg
        rw [if_neg hd, hrec, hg]
        omega

-- MARK: - Claims

/-- **C8**: `destroyEntity` called with an invalid handle is a no-op: it
returns with the registry state (slots, generations, membership masks, free
list and free count) completely unchanged. -/
theorem claim_C8 (ecs : ECS) (e : Nat) (h : isEntityValid ecs e = false) :
    destroyEntity ecs e = some ecs := by
  unfold destroyEntity
  simp [h]

theorem claim_C8_witness : isEntityValid newECS (createHandle 0 5) = false ∧
    destroyEntity newECS (createHandle 0 5) = some newECS :=
  ⟨by decide, claim_C8 newECS (createHandle 0 5) (by decide)⟩

/-- **C10**: `getComponentID` (and `isEntityValid`, whose embedding is a
function of a `const ECS *`) is a pure read: whenever it returns, the
registry state it hands back is exactly the input state, every field
included; in particular validity of any handle is undisturbed. -/
theorem claim_C10 (ecs s : ECS) (e c : Nat) (r : Option Ptr)
    (h : getComponentID ecs e c = some (s, r)) :
    s = ecs ∧ ∀ e2 : Nat, isEntityValid s e2 = isEntityValid ecs e2 := by
  unfold getComponentID at h
  split at h
  · split at h
    · dsimp only at h
      split at h
      · injection h with h1
        cases h1
        exact ⟨rfl, fun _ => rfl⟩
      · injection h with h1
        cases h1
        exact ⟨rfl, fun _ => rfl⟩
    · exact absurd h (by simp)
  · exact absurd h (by simp)

theorem claim_C10_witness :
    getComponentID wE1.1 wE1.2 0 = some (wE1.1, none) ∧
      (wE1.1 = wE1.1 ∧ ∀ e2 : Nat, isEntityValid wE1.1 e2 = isEntityValid wE1.1 e2) :=
  ⟨by rfl, claim_C10 wE1.1 wE1.1 wE1.2 0 none (by rfl)⟩

/-- **C7**: `ecsDeclareComponent` is idempotent in the component name:
re-declaring a name already declared returns the same ID and leaves the
registry (hence the set of allocated storage buffers) completely
unchanged; a first-time declaration assigns the next sequential ID (the
prior component count) and appends exactly one store; and
`ecsComponentID` on an unregistered name returns the sentinel value
`ECS_MAX_COMPS` (its embedding is a pure function — the C parameter is a
`const ECS *` — so the registry is not mutated). -/
theorem claim_C7 (ecs ecs1 : ECS) (n : String) (sz sz2 i : Nat)
    (h : ecsDeclareComponent ecs n sz = some (ecs1, i)) :
    ecsDeclareComponent ecs1 n sz2 = some (ecs1, i) ∧
    (ecsComponentID ecs n = ECS_MAX_COMPS →
      i = ecs.compData.length ∧ ecs1.compData.length = ecs.compData.length + 1) ∧
    ((∀ c ∈ ecs.compData, c.id ≠ n) → ecsComponentID ecs n = ECS_MAX_COMPS) := by
  have hpure : (∀ c ∈ ecs.compData, c.id ≠ n) → ecsComponentID ecs n = ECS_MAX_COMPS := by
    intro hall
    unfold ecsComponentID
    rw [(scanComp_eq_none_iff n ecs.compData).mpr hall]
    rfl
  simp only [ecsDeclareComponent] at h
  split at h
  · -- the name was already registered: the state is returned untouched
    rename_i hj
    injection h with h1
    injection h1 with h1 h2
    subst h1; subst h2
    refine ⟨?_, fun habs => absurd habs hj, hpure⟩
    simp only [ecsDeclareComponent]
    rw [if_pos hj]
  · -- first-time declaration
    rename_i hj
    split at h
    · rename_i hlen
      injection h with h1
      injection h1 with hrec hid
      have hcomp : ecs1.compData =
          ecs.compData ++ [⟨sz, n, List.replicate (ECS_MAX_ENTITIES * sz) 0⟩] := by
        rw [← hrec]
      have h8 : ecsComponentID ecs n = ECS_MAX_COMPS := by
        by_contra hc
        exact hj hc
      have hnone : scanComp n ecs.compData = none := by
        cases hsc : scanComp n ecs.compData with
        | none => rfl
        | some k =>
          have hk := scanComp_some_lt n ecs.compData k hsc
          have hidk : ecsComponentID ecs n = k := by
            unfold ecsComponentID; rw [hsc]; rfl
          rw [h8] at hidk
          unfold ECS_MAX_COMPS at hidk hlen
          omega
      have hlook : ecsComponentID ecs1 n = ecs.compData.length := by
        unfold ecsComponentID
        rw [hcomp, scanComp_append_none n ecs.compData _ hnone]
        simp
      have hne : ecs.compData.length ≠ ECS_MAX_COMPS := by
        unfold ECS_MAX_COMPS at hlen ⊢
        omega
      refine ⟨?_, fun _ => ⟨hid.symm, by rw [hcomp]; simp⟩, hpure⟩
      simp only [ecsDeclareComponent]
      rw [hlook, if_pos hne, hid]
    · exact absurd h (by simp)

theorem entityIndex_createHandle_small (i g : Nat) (h : i < 65536) :
    entityIndex (createHandle i g) = i := by
  rw [entityIndex_createHandle]
  exact Nat.mod_eq_of_lt h

/-- The loop body of `matchEntities`, solved for a hit. -/
theorem matchBody_eq (ecs : ECS) (mask id x : Nat)
    (hB : (if flags (ecs.entities.data.getD id default) &&& kEntityUnused ≠ 0 then none
           else if (ecs.entities.data.getD id default).components &&& mask ≠ mask then none
           else some (createHandle id (generation (ecs.entities.data.getD id default)))) =
          some x) :
    x = createHandle id (genOf ecs id) ∧
    (ecs.entities.data.getD id default).components &&& mask = mask := by
  split at hB
  · exact absurd hB (by simp)
  · split at hB
    · exact absurd hB (by simp)
    · rename_i hcomp
      injection hB with h1
      exact ⟨h1.symm, Decidable.not_not.mp hcomp⟩

set_option maxRecDepth 100000 in
set_option maxHeartbeats 1000000 in
/-- **C2**, counterexample to the claim as stated: on a fresh registry no
slot is live, yet `matchEntities` with the empty mask invokes the iterator
for the never-created slot 0 (indeed for all 128 slots): a dead slot's
mask is empty, and the empty mask is a subset of it, so the claim's
"invokes f for no destroyed or never-created slot … also when m is the
empty mask" fails. -/
theorem claim_C2_counterexample :
    ¬ isLive newECS 0 ∧
    createHandle 0 0 ∈ matchEntities newECS 0 ∧
    entityIndex (createHandle 0 0) = 0 ∧
    (matchEntities newECS 0).length = 128 := by
  exact ⟨by decide, by decide, by decide, by decide⟩

set_option maxHeartbeats 1000000 in
/-- **C2**, amended: for a structurally well-formed registry (`WF`) whose
dead slots all carry empty masks (`DeadZero` — the invariant every
reachable state satisfies) and any *nonzero* mask `m`, `matchEntities`
invokes the iterator exactly once for each live slot whose membership mask
contains all bits of `m`, in strictly ascending slot-index order, passing
the current (index, generation) handle, and invokes it for no dead slot.
For `m = 0` the code instead visits every slot (see the counterexample). -/
theorem claim_C2 (ecs : ECS) (m : Nat) (hwf : WF ecs) (hdz : DeadZero ecs) (hm : m ≠ 0) :
    (∀ h ∈ matchEntities ecs m,
        isLive ecs (entityIndex h) ∧
        (ecs.entities.data.getD (entityIndex h) default).components &&& m = m ∧
        h = createHandle (entityIndex h) (genOf ecs (entityIndex h))) ∧
    (∀ idx : Nat, isLive ecs idx →
        (ecs.entities.data.getD idx default).components &&& m = m →
        createHandle idx (genOf ecs idx) ∈ matchEntities ecs m) ∧
    List.Pairwise (· < ·) ((matchEntities ecs m).map entityIndex) := by
  have hflags : ∀ id : Nat, flags (ecs.entities.data.getD id default) &&& kEntityUnused = 0 := by
    intro id
    rw [flags_eq_zero _ (lt_of_lt_of_le (infoInv_getD ecs (wf_info ecs hwf) id) (by norm_num))]
    rfl
  refine ⟨?_, ?_, ?_⟩
  · intro h hmem
    unfold matchEntities at hmem
    rw [List.mem_filterMap] at hmem
    obtain ⟨id, hidr, hB⟩ := hmem
    rw [List.mem_range] at hidr
    dsimp only at hB
    obtain ⟨hx, hcomp⟩ := matchBody_eq ecs m id h hB
    have hie : entityIndex h = id := by
      rw [hx]
      exact entityIndex_createHandle_small _ _
        (lt_of_lt_of_le hidr (by norm_num [ECS_MAX_ENTITIES]))
    rw [hie]
    refine ⟨⟨hidr, ?_⟩, hcomp, hx⟩
    intro hfree
    have hzero := hdz id hfree
    rw [hzero] at hcomp
    rw [Nat.zero_and] at hcomp
    exact hm hcomp.symm
  · intro idx hlive hcomp
    unfold matchEntities
    rw [List.mem_filterMap]
    refine ⟨idx, List.mem_range.mpr hlive.1, ?_⟩
    dsimp only
    rw [if_neg (by rw [hflags idx]; simp), if_neg (by rw [hcomp]; simp)]
    rfl
  · unfold matchEntities
    rw [List.pairwise_map, List.pairwise_filterMap]
    refine List.Pairwise.imp_of_mem ?_ (List.pairwise_lt_range _)
    intro a b ha hb hab x hx y hy
    rw [List.mem_range] at ha hb
    rw [Option.mem_def] at hx hy
    dsimp only at hx hy
    obtain ⟨hxe, -⟩ := matchBody_eq ecs m a x hx
    obtain ⟨hye, -⟩ := matchBody_eq ecs m b y hy
    rw [hxe, hye,
      entityIndex_createHandle_small _ _ (lt_of_lt_of_le ha (by norm_num [ECS_MAX_ENTITIES])),
      entityIndex_createHandle_small _ _ (lt_of_lt_of_le hb (by norm_num [ECS_MAX_ENTITIES]))]
    exact hab

set_option maxRecDepth 100000 in
set_option maxHeartbeats 2000000 in
theorem claim_C2_witness :
    (WF wC2 ∧ DeadZero wC2 ∧ (1 : Nat) ≠ 0) ∧
    ((∀ h ∈ matchEntities wC2 1,
        isLive wC2 (entityIndex h) ∧
        (wC2.entities.data.getD (entityIndex h) default).components &&& 1 = 1 ∧
        h = createHandle (entityIndex h) (genOf wC2 (entityIndex h))) ∧
      (∀ idx : Nat, isLive wC2 idx →
          (wC2.entities.data.getD idx default).components &&& 1 = 1 →
          createHandle idx (genOf wC2 idx) ∈ matchEntities wC2 1) ∧
      List.Pairwise (· < ·) ((matchEntities wC2 1).map entityIndex)) :=
  ⟨⟨by decide, by decide, by decide⟩, claim_C2 wC2 1 (by decide) (by decide) (by decide)⟩

/-- **C5**: a handle returned by `newEntity` is valid immediately after
creation; after a `destroyEntity` of that handle it is invalid, and it
stays invalid through any further sequence of API operations — including
reuses of its slot — as long as fewer than 256 destroy/reuse cycles of
that slot have occurred in total (the `uint8` generation counter's
wraparound window): the destroy of `e` itself is one cycle, so at most 254
further destroys of the slot are allowed (`slotDestroys … < 255`).  `WF`
is the structural well-formedness of the pool (fixed array lengths,
stack-height bound, in-range free indices, 8-bit generations), which holds
for `newECS` and is preserved by every operation. -/
theorem claim_C5 (s0 s1 s2 s3 s4 : ECS) (ops1 ops2 : List Op) (e : Nat)
    (hwf : WF s0)
    (h1 : newEntity s0 = some (s1, e))
    (h2 : runOps s1 ops1 = some s2)
    (h3 : isEntityValid s2 e = true)
    (h4 : destroyEntity s2 e = some s3)
    (h5 : runOps s3 ops2 = some s4)
    (h6 : slotDestroys s3 ops2 (entityIndex e) < 255) :
    isEntityValid s1 e = true ∧ isEntityValid s3 e = false ∧
      isEntityValid s4 e = false := by
  obtain ⟨hidx, hgen, -, hval⟩ := newEntity_handle s0 s1 e hwf h1
  have hwf1 := wf_newEntity s0 s1 e hwf h1
  have hwf2 := wf_run ops1 s1 s2 hwf1 h2
  have hg3 := genOf_destroyEntity_self s2 s3 e hwf2 hidx h3 h4
  have hwf3 : WF s3 := wf_destroyEntity s2 s3 e hwf2 hidx h4
  have hg4 := genOf_run ops2 s3 s4 (entityIndex e) hwf3 h5
  refine ⟨hval, ?_, ?_⟩
  · have hform : isEntityValid s3 e = (genOf s3 (entityIndex e) == entityGen e) := rfl
    rw [hform, hg3, beq_eq_false_iff_ne]
    omega
  · have hform : isEntityValid s4 e = (genOf s4 (entityIndex e) == entityGen e) := rfl
    rw [hform, hg4, hg3, beq_eq_false_iff_ne]
    omega

set_option maxRecDepth 10000 in
theorem claim_C5_witness :
    (WF newECS ∧
      newEntity newECS = some (wE1.1, wE1.2) ∧
      runOps wE1.1 [] = some wE1.1 ∧
      isEntityValid wE1.1 wE1.2 = true ∧
      destroyEntity wE1.1 wE1.2 = some wE1d ∧
      runOps wE1d [] = some wE1d ∧
      slotDestroys wE1d [] (entityIndex wE1.2) < 255) ∧
    (isEntityValid wE1.1 wE1.2 = true ∧ isEntityValid wE1d wE1.2 = false ∧
      isEntityValid wE1d wE1.2 = false) :=
  ⟨⟨by decide, by rfl, by rfl, by decide, by rfl, by rfl, by decide⟩,
    claim_C5 newECS wE1.1 wE1.1 wE1d wE1d [] [] wE1.2
      (by decide) (by rfl) (by rfl) (by decide) (by rfl) (by rfl) (by decide)⟩

/-- **C9**: in every registry state reachable from `newECS` by any sequence
of API operations, every slot's flags field (bits 16-31 of
`EntityData.info`) is zero — no operation ever sets `kEntityUnused` — so
the unused-slot test in `matchEntities` (`flags(data) & kEntityUnused`)
never excludes any slot; skipping dead slots rests entirely on their
cleared membership masks. -/
theorem claim_C9 (ops : List Op) (s : ECS) (h : runOps newECS ops = some s) (idx : Nat) :
    flags (s.entities.data.getD idx default) = 0 ∧
    flags (s.entities.data.getD idx default) &&& kEntityUnused = 0 := by
  have hinv : InfoInv newECS := by
    intro d hd
    have hd' : d ∈ List.replicate ECS_MAX_ENTITIES (default : EntityData) := hd
    rw [List.eq_of_mem_replicate hd']
    decide
  have hinv' := infoInv_run ops newECS s hinv h
  have hlt := infoInv_getD s hinv' idx
  have hf := flags_eq_zero _ (lt_of_lt_of_le hlt (by norm_num))
  refine ⟨hf, ?_⟩
  rw [hf]
  rfl

set_option maxRecDepth 10000 in
theorem claim_C9_witness :
    runOps newECS [Op.newE] = some wE1.1 ∧
      (flags (wE1.1.entities.data.getD 3 default) = 0 ∧
        flags (wE1.1.entities.data.getD 3 default) &&& kEntityUnused = 0) :=
  ⟨by rfl, claim_C9 [Op.newE] wE1.1 (by rfl) 3⟩

/-- **C6**: for a valid entity and in-range component ID, after
`addComponentID` the lookup `getComponentID` returns a non-`NULL` pointer
and the entity's membership mask includes the component's bit; after
`removeComponentID` the lookup returns `NULL`, and the removal clears only
that membership bit — the component store bytes (`compData`), every other
bit of the entity's mask, and every other slot's data are unchanged.  The
hypothesis `hlen` states the handle addresses a slot of the (fixed-size)
slot array, which the C code indexes without a bounds check. -/
theorem claim_C6 (ecs ecs1 : ECS) (e c : Nat) (p : Ptr)
    (hlen : entityIndex e < ecs.entities.data.length)
    (hadd : addComponentID ecs e c = some (ecs1, p)) :
    (∃ q : Ptr, getComponentID ecs1 e c = some (ecs1, some q)) ∧
    (ecs1.entities.data.getD (entityIndex e) default).components &&& (1 <<< c) ≠ 0 ∧
    (∃ ecs2 : ECS, removeComponentID ecs1 e c = some ecs2 ∧
      getComponentID ecs2 e c = some (ecs2, none) ∧
      ecs2.compData = ecs1.compData ∧
      (ecs2.entities.data.getD (entityIndex e) default).components &&& (1 <<< c) = 0 ∧
      (∀ j : Nat, j ≠ c →
        (ecs2.entities.data.getD (entityIndex e) default).components.testBit j =
          (ecs1.entities.data.getD (entityIndex e) default).components.testBit j) ∧
      (∀ idx : Nat, idx ≠ entityIndex e →
        ecs2.entities.data.getD idx default = ecs1.entities.data.getD idx default)) := by
  unfold addComponentID at hadd
  split at hadd
  case isFalse => exact absurd hadd (by simp)
  rename_i hc
  split at hadd
  case isFalse => exact absurd hadd (by simp)
  rename_i hv
  have hc8 : c < 8 := by unfold ECS_MAX_COMPS at hc; exact hc
  dsimp only at hadd
  injection hadd with h1
  injection h1 with hrec hp
  have hdata1 : ecs1.entities.data =
      ecs.entities.data.set (entityIndex e)
        ⟨(ecs.entities.data.getD (entityIndex e) default).info,
          u8 ((ecs.entities.data.getD (entityIndex e) default).components ||| (1 <<< c))⟩ := by
    rw [← hrec]
  have hget1 : ecs1.entities.data.getD (entityIndex e) default =
      ⟨(ecs.entities.data.getD (entityIndex e) default).info,
        u8 ((ecs.entities.data.getD (entityIndex e) default).components ||| (1 <<< c))⟩ := by
    rw [hdata1]
    exact getD_set_self _ _ _ _ hlen
  have hv1 : isEntityValid ecs1 e = true := by
    unfold isEntityValid at hv ⊢
    rw [hget1]
    exact hv
  have hbit1 :
      (u8 ((ecs.entities.data.getD (entityIndex e) default).components ||| (1 <<< c)))
        &&& (1 <<< c) ≠ 0 := by
    rw [Ne, and_shiftLeft_eq_zero_iff]
    rw [testBit_u8, Nat.one_shiftLeft, Nat.testBit_or, Nat.testBit_two_pow]
    simp [hc8]
  refine ⟨?_, ?_, ?_⟩
  · refine ⟨⟨c, c * (ecs1.compData.getD c default).size⟩, ?_⟩
    unfold getComponentID
    rw [if_pos hc, if_pos hv1]
    dsimp only
    rw [hget1]
    rw [if_neg hbit1]
  · rw [hget1]
    exact hbit1
  · refine ⟨{ ecs1 with entities :=
        { ecs1.entities with
            data := ecs1.entities.data.set (entityIndex e)
              ⟨(ecs.entities.data.getD (entityIndex e) default).info,
                u8 ((u8 ((ecs.entities.data.getD (entityIndex e) default).components ||| (1 <<< c)))
                  &&& (4294967295 ^^^ (1 <<< c)))⟩ } }, ?_, ?_, rfl, ?_, ?_, ?_⟩
    · unfold removeComponentID
      rw [if_pos hc, if_pos hv1]
      dsimp only
      rw [hget1]
    · have hlen1 : entityIndex e < ecs1.entities.data.length := by
        rw [hdata1, List.length_set]
        exact hlen
      have hget2 : ((ecs1.entities.data.set (entityIndex e)
          ⟨(ecs.entities.data.getD (entityIndex e) default).info,
            u8 ((u8 ((ecs.entities.data.getD (entityIndex e) default).components ||| (1 <<< c)))
              &&& (4294967295 ^^^ (1 <<< c)))⟩)).getD (entityIndex e) default =
          ⟨(ecs.entities.data.getD (entityIndex e) default).info,
            u8 ((u8 ((ecs.entities.data.getD (entityIndex e) default).components ||| (1 <<< c)))
              &&& (4294967295 ^^^ (1 <<< c)))⟩ :=
        getD_set_self _ _ _ _ hlen1
      have hv2 : isEntityValid { ecs1 with entities :=
          { ecs1.entities with
              data := ecs1.entities.data.set (entityIndex e)
                ⟨(ecs.entities.data.getD (entityIndex e) default).info,
                  u8 ((u8 ((ecs.entities.data.getD (entityIndex e) default).components ||| (1 <<< c)))
                    &&& (4294967295 ^^^ (1 <<< c)))⟩ } } e = true := by
        unfold isEntityValid at hv ⊢
        dsimp only
        rw [hget2]
        exact hv
      have hbit2 : (u8 ((u8 ((ecs.entities.data.getD (entityIndex e) default).components ||| (1 <<< c)))
          &&& (4294967295 ^^^ (1 <<< c)))) &&& (1 <<< c) = 0 := by
        rw [and_shiftLeft_eq_zero_iff, testBit_u8, Nat.testBit_and, Nat.testBit_xor]
        have hM : (4294967295 : Nat) = 2 ^ 32 - 1 := by norm_num
        rw [hM, Nat.testBit_two_pow_sub_one, Nat.one_shiftLeft, Nat.testBit_two_pow]
        have hc32 : c < 32 := by omega
        simp [hc32]
      unfold getComponentID
      rw [if_pos hc, if_pos hv2]
      dsimp only
      rw [hget2]
      rw [if_pos hbit2]
    · have hlen1 : entityIndex e < ecs1.entities.data.length := by
        rw [hdata1, List.length_set]
        exact hlen
      have hget2 := getD_set_self (ecs1.entities.data) (entityIndex e)
        ⟨(ecs.entities.data.getD (entityIndex e) default).info,
          u8 ((u8 ((ecs.entities.data.getD (entityIndex e) default).components ||| (1 <<< c)))
            &&& (4294967295 ^^^ (1 <<< c)))⟩ default hlen1
      dsimp only
      rw [hget2]
      dsimp only
      rw [and_shiftLeft_eq_zero_iff, testBit_u8, Nat.testBit_and, Nat.testBit_xor]
      have hM : (4294967295 : Nat) = 2 ^ 32 - 1 := by norm_num
      rw [hM, Nat.testBit_two_pow_sub_one, Nat.one_shiftLeft, Nat.testBit_two_pow]
      have hc32 : c < 32 := by omega
      simp [hc32]
    · intro j hj
      have hlen1 : entityIndex e < ecs1.entities.data.length := by
        rw [hdata1, List.length_set]
        exact hlen
      have hget2 := getD_set_self (ecs1.entities.data) (entityIndex e)
        ⟨(ecs.entities.data.getD (entityIndex e) default).info,
          u8 ((u8 ((ecs.entities.data.getD (entityIndex e) default).components ||| (1 <<< c)))
            &&& (4294967295 ^^^ (1 <<< c)))⟩ default hlen1
      dsimp only
      rw [hget2, hget1]
      dsimp only
      have hcj : c ≠ j := fun h => hj h.symm
      have hM : (4294967295 : Nat) = 2 ^ 32 - 1 := by norm_num
      by_cases hj8 : j < 8
      · have hj32 : j < 32 := by omega
        rw [testBit_u8, Nat.testBit_and, Nat.testBit_xor, hM,
          Nat.testBit_two_pow_sub_one, Nat.one_shiftLeft, Nat.testBit_two_pow]
        simp [hj8, hj32, hcj]
      · rw [testBit_u8, testBit_u8]
        simp [hj8]
    · intro idx hne
      dsimp only
      exact getD_set_ne _ _ _ _ _ (Ne.symm hne)

set_option maxRecDepth 10000 in
theorem claim_C6_witness :
    (entityIndex wC1s1.2 < wC1s2.1.entities.data.length ∧
      addComponentID wC1s2.1 wC1s1.2 0 = some (wC1p1.1, wC1p1.2)) ∧
    ((∃ q : Ptr, getComponentID wC1p1.1 wC1s1.2 0 = some (wC1p1.1, some q)) ∧
      (wC1p1.1.entities.data.getD (entityIndex wC1s1.2) default).components &&& (1 <<< 0) ≠ 0 ∧
      (∃ ecs2 : ECS, removeComponentID wC1p1.1 wC1s1.2 0 = some ecs2 ∧
        getComponentID ecs2 wC1s1.2 0 = some (ecs2, none) ∧
        ecs2.compData = wC1p1.1.compData ∧
        (ecs2.entities.data.getD (entityIndex wC1s1.2) default).components &&& (1 <<< 0) = 0 ∧
        (∀ j : Nat, j ≠ 0 →
          (ecs2.entities.data.getD (entityIndex wC1s1.2) default).components.testBit j =
            (wC1p1.1.entities.data.getD (entityIndex wC1s1.2) default).components.testBit j) ∧
        (∀ idx : Nat, idx ≠ entityIndex wC1s1.2 →
          ecs2.entities.data.getD idx default =
            wC1p1.1.entities.data.getD idx default))) :=
  ⟨⟨by decide, by rfl⟩, claim_C6 wC1s2.1 wC1p1.1 wC1s1.2 0 wC1p1.2 (by decide) (by rfl)⟩

theorem claim_C7_witness :
    ecsDeclareComponent newECS "A" 4 = some (wC1ecs0, 0) ∧
      (ecsDeclareComponent wC1ecs0 "A" 7 = some (wC1ecs0, 0) ∧
        (ecsComponentID newECS "A" = ECS_MAX_COMPS →
          0 = newECS.compData.length ∧
            wC1ecs0.compData.length = newECS.compData.length + 1) ∧
        ((∀ c ∈ newECS.compData, c.id ≠ "A") →
          ecsComponentID newECS "A" = ECS_MAX_COMPS)) :=
  ⟨by rfl, claim_C7 newECS wC1ecs0 "A" 4 7 0 (by rfl)⟩

/-- **C1** fails on the code: `addComponentID` (and the hit branch of
`getComponentID`) returns `compData[X]->data + X * size`, using the
component ID where the claim (and the spec) require the entity's slot
index.  Evaluated here: entities in slots 0 and 1 both receive component 0
(size 4) and get the *same* address (offset 0), and the second entity's
address differs from the claimed `base + entityIndex(e) * size = base + 4`.
The source even computes `uint16_t id = entityIndex(entity);` and then
never uses it — the claim states the intended behaviour, the code is a
slip. -/
theorem claim_C1 :
    addComponentID wC1s2.1 wC1s1.2 0 = some wC1p1 ∧
      addComponentID wC1p1.1 wC1s2.2 0 = some wC1p2 ∧
      entityIndex wC1s1.2 = 0 ∧ entityIndex wC1s2.2 = 1 ∧
      (wC1ecs0.compData.getD 0 default).size = 4 ∧
      wC1p1.2 = wC1p2.2 ∧
      wC1p2.2.off ≠ entityIndex wC1s2.2 * 4 := by
  refine ⟨by rfl, by rfl, by decide, by decide, by rfl, by decide, by decide⟩

/-- **C3** fails on the code: `newSystem` appends the entry with identifier
`nextSystemID++` but then executes `return 0;`, so every registration
returns 0 regardless of the identifier actually assigned.  Evaluated here:
the second registration's entry carries id 1, yet the call returns 0, and
passing that return value to `destroySystem`/`findSystem` designates the
*first* system.  The header documents the return value as "a unique
identifier that refers to the system" — the claim states the intended
behaviour, the code is a slip. -/
theorem claim_C3 :
    newSystem wC3s1.1 5 1 0 = some wC3s2 ∧
      (wC3s2.1.systems.getD 1 default).id = 1 ∧
      wC3s2.2 = 0 ∧
      findSystem wC3s2.1 wC3s2.2 = some 0 := by
  refine ⟨by rfl, by rfl, by rfl, by decide⟩

/-- **C4** fails on the code: `destroySystem` calls
`memmove(sys + 1, sys, …)` with source and destination transposed, so
instead of shifting the later entries down over the found entry it copies
the found entry and its successors *up*, keeping the found entry and
dropping the last one.  Evaluated here: on a table holding ids `[0, 1]`,
`destroySystem(…, 0)` leaves a table holding just id 0 — the entry that
was supposed to be removed survives and the other system vanishes. -/
theorem claim_C4 :
    destroySystem wC3s2.1 0 = some wC4 ∧
      wC4.systemCount = 1 ∧
      (wC4.systems.getD 0 default).id = 0 ∧
      findSystem wC4 0 = some 0 ∧
      findSystem wC4 1 = none := by
  refine ⟨by rfl, by rfl, by rfl, by decide, by decide⟩

end PdEcs
